import Mathlib

/-!
Verification of the BLE IMU telemetry link (ble_server repository).

The development shallowly embeds the Python sources:
- the frame codec used by the peripheral read callbacks
  (`struct.pack('<hhh', ...)` / `struct.unpack('<hhh', ...)`) and by the
  single-characteristic composite variant (`struct.pack('<fffffffff', ...)`);
- the `BLECentral` / `AsyncBLECentral` session state machine from
  `src/central.py` (connect, disconnect, characteristic loading,
  `read_imu_data`, and the `connection` context manager).

Machine integers are modelled as `Int`/`Nat` with explicit `% 2^w`
arithmetic; fallible operations return `Option`/`Except`.
-/

namespace BLE

/-! ## Frame codec (integer profile)

The peripheral read callbacks (`_read_accelerometer` and friends in
`src/peripheral.py`, `_pack_sensor_values` in `BerryIMU/central.py`) call
CPython `struct.pack('<hhh', int(x), int(y), int(z))`.  CPython's `struct`
raises `struct.error` when a value does not fit the signed 16-bit range of
format code h; the raise is modelled as `none`. -/

/-- `v` fits a signed 16-bit integer, the range CPython `struct` accepts for
one h slot. -/
def inInt16 (v : Int) : Prop := -32768 ≤ v ∧ v ≤ 32767

instance (v : Int) : Decidable (inInt16 v) := by
  unfold inInt16; infer_instance

/-- The two little-endian bytes of `v` as a 16-bit two's-complement word,
i.e. the bytes `struct.pack('<h', v)` emits for an in-range `v`. -/
def le16 (v : Int) : List Nat :=
  [(v % 65536).toNat % 256, (v % 65536).toNat / 256]

/-- Embedding of `struct.pack('<hhh', int(x), int(y), int(z))` as invoked by
the peripheral read callbacks: a 6-byte little-endian frame for in-range
components, `none` (a `struct.error` raise) otherwise. -/
def pack_hhh (x y z : Int) : Option (List Nat) :=
  if inInt16 x ∧ inInt16 y ∧ inInt16 z then
    some (le16 x ++ le16 y ++ le16 z)
  else none

/-- Sign extension of a 16-bit little-endian word back to an integer. -/
def toInt16 (u : Nat) : Int :=
  if u < 32768 then (u : Int) else (u : Int) - 65536

/-- Embedding of `struct.unpack('<hhh', value)` as used by the micropython
central's read handler (`micro_central.py`): decodes a 6-byte frame into the
axis triple, raising `struct.error` (`none`) on any other length. -/
def unpack_hhh (bs : List Nat) : Option (Int × Int × Int) :=
  match bs with
  | [a, b, c, d, e, f] =>
      some (toInt16 (a + 256 * b), toInt16 (c + 256 * d), toInt16 (e + 256 * f))
  | _ => none

/-- Decoding the two little-endian bytes of an in-range value recovers it. -/
theorem toInt16_bytes (v : Int) (h1 : -32768 ≤ v) (h2 : v ≤ 32767) :
    toInt16 ((v % 65536).toNat % 256 + 256 * ((v % 65536).toNat / 256)) = v := by
  rw [Nat.mod_add_div]
  unfold toInt16
  split <;> omega

/-! ## Sensor source and peripheral read callbacks -/

/-- Stubbed `SensorSource`: one snapshot of the nine axis register reads
pulled by the peripheral read callbacks (`IMUSensor.readACCx` etc.). -/
structure IMUSource where
  readACCx : Int
  readACCy : Int
  readACCz : Int
  readGYRx : Int
  readGYRy : Int
  readGYRz : Int
  readMAGx : Int
  readMAGy : Int
  readMAGz : Int

/-- Embedding of `IMUPeripheral._read_accelerometer`: pulls the three
accelerometer axes from the sensor source and packs them with
`struct.pack('<hhh', ...)`. -/
def read_accelerometer (imu : IMUSource) : Option (List Nat) :=
  pack_hhh imu.readACCx imu.readACCy imu.readACCz

/-- Embedding of `IMUPeripheral._read_gyroscope`. -/
def read_gyroscope (imu : IMUSource) : Option (List Nat) :=
  pack_hhh imu.readGYRx imu.readGYRy imu.readGYRz

/-- Embedding of `IMUPeripheral._read_magnetometer`. -/
def read_magnetometer (imu : IMUSource) : Option (List Nat) :=
  pack_hhh imu.readMAGx imu.readMAGy imu.readMAGz

/-! ## Claims C2, C3, C4 -/

/-- C2 counterexample: the component 40000 is above the int16 range, and the
integer-profile encode returns no frame at all (CPython `struct.pack('<h',
...)` raises `struct.error`), contradicting the claim that an out-of-range
component is truncated into a 6-byte frame. -/
theorem pack_out_of_range_counterexample :
    (32767 : Int) < 40000 ∧ pack_hhh 40000 0 0 = none := by
  decide

/-- C2 (amended): for any axis triple with a component outside
−32768..32767 the integer-profile encode fails (raises `struct.error`,
modelled as `none`) rather than truncating; a 6-byte little-endian frame is
produced exactly when all three components are in range. -/
theorem pack_range_behaviour (x y z : Int) :
    (¬ (inInt16 x ∧ inInt16 y ∧ inInt16 z) → pack_hhh x y z = none) ∧
    ((inInt16 x ∧ inInt16 y ∧ inInt16 z) →
      ∃ bs, pack_hhh x y z = some bs ∧ bs.length = 6) := by
  constructor
  · intro h
    unfold pack_hhh
    rw [if_neg h]
  · intro h
    refine ⟨le16 x ++ le16 y ++ le16 z, ?_, ?_⟩
    · unfold pack_hhh
      rw [if_pos h]
    · simp [le16]

/-- Witness for the amended C2 theorem at concrete inputs. -/
theorem pack_range_behaviour_witness :
    pack_hhh 40000 (-1) 0 = none ∧
    ∃ bs, pack_hhh 100 (-200) 300 = some bs ∧ bs.length = 6 :=
  ⟨(pack_range_behaviour 40000 (-1) 0).1 (by decide),
   (pack_range_behaviour 100 (-200) 300).2 (by decide)⟩

/-- C3: for every triple of int16-representable components, decoding the
6-byte little-endian frame produced by the integer-profile encode yields
exactly the original triple. -/
theorem pack_unpack_roundtrip (x y z : Int)
    (hx1 : -32768 ≤ x) (hx2 : x ≤ 32767)
    (hy1 : -32768 ≤ y) (hy2 : y ≤ 32767)
    (hz1 : -32768 ≤ z) (hz2 : z ≤ 32767) :
    (pack_hhh x y z).bind unpack_hhh = some (x, y, z) := by
  unfold pack_hhh
  rw [if_pos ⟨⟨hx1, hx2⟩, ⟨hy1, hy2⟩, ⟨hz1, hz2⟩⟩]
  show unpack_hhh (le16 x ++ le16 y ++ le16 z) = some (x, y, z)
  unfold le16
  simp only [List.cons_append, List.nil_append, unpack_hhh]
  rw [toInt16_bytes x hx1 hx2, toInt16_bytes y hy1 hy2, toInt16_bytes z hz1 hz2]

/-- Witness for the C3 round-trip at a concrete triple. -/
theorem pack_unpack_roundtrip_witness :
    (pack_hhh 100 (-200) 300).bind unpack_hhh = some (100, -200, 300) :=
  pack_unpack_roundtrip 100 (-200) 300 (by decide) (by decide) (by decide)
    (by decide) (by decide) (by decide)

/-- C4: with a stub sensor returning (100, -200, 300) for the accelerometer,
the accelerometer read callback yields exactly the bytes
64 00 38 FF 2C 01 (little-endian int16 triple). -/
theorem read_accelerometer_stub :
    read_accelerometer ⟨100, -200, 300, 0, 0, 0, 0, 0, 0⟩ =
      some [0x64, 0x00, 0x38, 0xFF, 0x2C, 0x01] := by
  decide

/-! ## Central session (`src/central.py`)

`BLECentral` holds `max_retries`, `retry_delay`, `connected` and
`_characteristics` as instance attributes; the transport (`bluezero`
adapter/device/GATT objects) is stubbed as fixed outcomes per primitive.
The async subclass `AsyncBLECentral` is embedded by separate definitions
mirroring its (textually duplicated) method bodies. -/

/-- Logical sensor channel, the three fields of the `IMUCharacteristics`
dataclass. -/
inductive Channel
  | accel
  | gyro
  | mag
deriving DecidableEq

/-- The `IMUCharacteristics` dataclass: one resolved GATT characteristic
handle per sensor channel. -/
structure IMUCharacteristics where
  accel : Nat
  gyro : Nat
  mag : Nat
deriving DecidableEq

/-- Dataclass field access on a resolved characteristic set. -/
def IMUCharacteristics.handle (c : IMUCharacteristics) : Channel → Nat
  | .accel => c.accel
  | .gyro => c.gyro
  | .mag => c.mag

/-- Stubbed `RadioStack`: the outcome of each transport primitive the
central session invokes. -/
structure RadioStack where
  /-- whether `device.connect()` returns (true) or raises (false) -/
  connectOk : Bool
  /-- `device.services_resolved` after n half-second polling sleeps -/
  servicesResolved : Nat → Bool
  /-- `GATT.Characteristic.resolve_gatt()` outcome per channel -/
  resolveOk : Channel → Bool
  /-- identity of the resolved characteristic object per channel -/
  handleOf : Channel → Nat
  /-- `char.read_value()` on a resolved handle: `none` models a raise -/
  readValue : Nat → Option (List Nat)

/-- Mutable attributes of a `BLECentral` instance as set by `__init__`:
the retry configuration is stored (and, as in the source, never read by
any method), the session starts not connected with no characteristics. -/
structure CentralState where
  maxRetries : Nat
  retryDelay : Nat
  connected : Bool
  characteristics : Option IMUCharacteristics
deriving DecidableEq

/-- Embedding of the service-discovery polling loop inside `connect`:
`retry = 30; while not services_resolved and retry > 0: retry -= 1;
sleep(0.5)`.  Returns the number of half-second sleeps performed; the
loop exits early once `services_resolved` holds. -/
def waitResolved (resolved : Nat → Bool) : Nat → Nat → Nat
  | 0, t => t
  | fuel + 1, t => if resolved t then t else waitResolved resolved fuel (t + 1)

/-- Embedding of `BLECentral._load_characteristics`: resolves the accel,
gyro and mag descriptors in dict insertion order; the first
`resolve_gatt` failure raises (`error`), in which case nothing is
assigned to `self._characteristics`. -/
def loadCharacteristics (r : RadioStack) : Except Unit IMUCharacteristics :=
  if r.resolveOk Channel.accel = false then .error ()
  else if r.resolveOk Channel.gyro = false then .error ()
  else if r.resolveOk Channel.mag = false then .error ()
  else .ok ⟨r.handleOf Channel.accel, r.handleOf Channel.gyro, r.handleOf Channel.mag⟩

/-- Observable transport activity during one `connect()` call. -/
structure ConnectTrace where
  /-- invocations of `device.connect()` -/
  deviceConnectCalls : Nat
  /-- half-second service-discovery polling sleeps -/
  pollSleeps : Nat
  /-- sleeps of `retry_delay` between attempts (the source contains no
  such sleep: `retry_delay` is stored by `__init__` and never read) -/
  retryDelaySleeps : Nat
deriving DecidableEq

/-- Embedding of `BLECentral.connect`: returns the boolean result, the
updated instance state and the transport trace.  The body performs a
single `device.connect()` call — there is no retry loop over
`max_retries` in the source — then polls service discovery and loads the
characteristics; every raise is caught, setting `connected = False` and
returning `False`. -/
def connect (r : RadioStack) (s : CentralState) :
    Bool × CentralState × ConnectTrace :=
  if s.connected then (true, s, ⟨0, 0, 0⟩)
  else if r.connectOk = false then
    (false, { s with connected := false }, ⟨1, 0, 0⟩)
  else
    let polls := waitResolved r.servicesResolved 30 0
    if r.servicesResolved polls = false then
      (false, { s with connected := false }, ⟨1, polls, 0⟩)
    else
      match loadCharacteristics r with
      | .error _ => (false, { s with connected := false }, ⟨1, polls, 0⟩)
      | .ok chars =>
          (true, { s with connected := true, characteristics := some chars },
           ⟨1, polls, 0⟩)

/-- Embedding of `BLECentral.disconnect`: a no-op unless connected;
otherwise calls `device.disconnect()` (raises are swallowed) and in the
`finally` clears the connected flag and the stored characteristics.
Returns the new state and the number of `device.disconnect()` calls. -/
def disconnect (s : CentralState) : CentralState × Nat :=
  if s.connected then
    ({ s with connected := false, characteristics := none }, 1)
  else (s, 0)

/-- `getattr(self._characteristics, sensor_type)`: dataclass attribute
lookup, raising `AttributeError` (`none`) for any name other than the
three defined fields. -/
def channelOfName (name : String) : Option Channel :=
  if name = "accel" then some Channel.accel
  else if name = "gyro" then some Channel.gyro
  else if name = "mag" then some Channel.mag
  else none

/-- `bluezero.tools.bytes_to_xyz`, the decoder applied to a read payload.
Modelled from the spec: `decodeAxisTriple` is the inverse of the integer
profile encode and fails (`MalformedFrame`) on length mismatch; the
library source is external to this repository. -/
def bytes_to_xyz (bs : List Nat) : Option (Int × Int × Int) :=
  unpack_hhh bs

/-- Whether a `read_imu_data` call went through the implicit-connect
branch before attempting the read. -/
structure ReadTrace where
  connectCalled : Bool
deriving DecidableEq

/-- The try block of `read_imu_data`: dataclass attribute lookup, then
`char.read_value()`, then decode; any raise is caught by the handler
which sets `connected = False` and returns `None`. -/
def readAttempt (r : RadioStack) (s : CentralState) (name : String)
    (tr : ReadTrace) :
    Option (Int × Int × Int) × CentralState × ReadTrace :=
  match s.characteristics with
  | none => (none, { s with connected := false }, tr)
  | some chars =>
    match channelOfName name with
    | none => (none, { s with connected := false }, tr)
    | some ch =>
      match r.readValue (chars.handle ch) with
      | none => (none, { s with connected := false }, tr)
      | some raw =>
        match bytes_to_xyz raw with
        | none => (none, { s with connected := false }, tr)
        | some v => (some v, s, tr)

/-- Embedding of `BLECentral.read_imu_data`: if the session is not
connected or holds no characteristics, first performs an implicit
`connect()` (returning `None` if it fails), then runs the guarded read. -/
def read_imu_data (r : RadioStack) (s : CentralState) (name : String) :
    Option (Int × Int × Int) × CentralState × ReadTrace :=
  if s.connected = false ∨ s.characteristics = none then
    let c := connect r s
    if c.1 = false then (none, c.2.1, ⟨true⟩)
    else readAttempt r c.2.1 name ⟨true⟩
  else readAttempt r s name ⟨false⟩

/-- Embedding of the `connection` context manager:
`try: self.connect(); yield self; finally: self.disconnect()`.
The body raising is modelled by its first component being `none`
(the exception propagates after the `finally`).  The last component
counts invocations of the `disconnect` method, which the `finally`
guarantees on every exit path. -/
def connectionRun (r : RadioStack) (s : CentralState)
    (body : RadioStack → CentralState → Option Unit × CentralState) :
    Option Unit × CentralState × Nat :=
  let c := connect r s
  let b := body r c.2.1
  let d := disconnect b.2
  (b.1, d.1, 1)

/-! ### `AsyncBLECentral` (same module): the async method bodies are
textual duplicates of the sync ones with the blocking transport calls
offloaded to an executor and the sleeps cooperative; the embedded state
functions mirror them definition for definition. -/

/-- Embedding of `AsyncBLECentral.connect_async`. -/
def connect_async (r : RadioStack) (s : CentralState) :
    Bool × CentralState × ConnectTrace :=
  if s.connected then (true, s, ⟨0, 0, 0⟩)
  else if r.connectOk = false then
    (false, { s with connected := false }, ⟨1, 0, 0⟩)
  else
    let polls := waitResolved r.servicesResolved 30 0
    if r.servicesResolved polls = false then
      (false, { s with connected := false }, ⟨1, polls, 0⟩)
    else
      match loadCharacteristics r with
      | .error _ => (false, { s with connected := false }, ⟨1, polls, 0⟩)
      | .ok chars =>
          (true, { s with connected := true, characteristics := some chars },
           ⟨1, polls, 0⟩)

/-- Embedding of `AsyncBLECentral.disconnect_async`. -/
def disconnect_async (s : CentralState) : CentralState × Nat :=
  if s.connected then
    ({ s with connected := false, characteristics := none }, 1)
  else (s, 0)

/-- The try block of `read_imu_data_async` (duplicated from the sync
variant in the source). -/
def readAttempt_async (r : RadioStack) (s : CentralState) (name : String)
    (tr : ReadTrace) :
    Option (Int × Int × Int) × CentralState × ReadTrace :=
  match s.characteristics with
  | none => (none, { s with connected := false }, tr)
  | some chars =>
    match channelOfName name with
    | none => (none, { s with connected := false }, tr)
    | some ch =>
      match r.readValue (chars.handle ch) with
      | none => (none, { s with connected := false }, tr)
      | some raw =>
        match bytes_to_xyz raw with
        | none => (none, { s with connected := false }, tr)
        | some v => (some v, s, tr)

/-- Embedding of `AsyncBLECentral.read_imu_data_async` (implicit connect
goes through `connect_async`). -/
def read_imu_data_async (r : RadioStack) (s : CentralState) (name : String) :
    Option (Int × Int × Int) × CentralState × ReadTrace :=
  if s.connected = false ∨ s.characteristics = none then
    let c := connect_async r s
    if c.1 = false then (none, c.2.1, ⟨true⟩)
    else readAttempt_async r c.2.1 name ⟨true⟩
  else readAttempt_async r s name ⟨false⟩

/-- Embedding of the async `connection` context manager
(`connect_async` / `disconnect_async` around the body). -/
def connectionRun_async (r : RadioStack) (s : CentralState)
    (body : RadioStack → CentralState → Option Unit × CentralState) :
    Option Unit × CentralState × Nat :=
  let c := connect_async r s
  let b := body r c.2.1
  let d := disconnect_async b.2
  (b.1, d.1, 1)

/-! ## Concrete stubs used by closed theorems and witnesses -/

/-- A fresh `BLECentral` as built by `__init__` with the default
`max_retries = 3`, `retry_delay = 2.0` (delay kept in whole seconds). -/
def freshCentral : CentralState :=
  { maxRetries := 3, retryDelay := 2, connected := false, characteristics := none }

/-- A transport whose every primitive fails: `device.connect()` raises on
each call, discovery never resolves, no characteristic resolves, reads
raise. -/
def failingRadio : RadioStack :=
  { connectOk := false
    servicesResolved := fun _ => false
    resolveOk := fun _ => false
    handleOf := fun _ => 0
    readValue := fun _ => none }

/-- A transport where everything succeeds except that the gyro descriptor
fails to resolve. -/
def gyroFailRadio : RadioStack :=
  { connectOk := true
    servicesResolved := fun _ => true
    resolveOk := fun ch => match ch with | Channel.gyro => false | _ => true
    handleOf := fun _ => 7
    readValue := fun _ => some [0, 0, 0, 0, 0, 0] }

/-- A transport where connection and resolution succeed but every
characteristic read raises. -/
def readFailRadio : RadioStack :=
  { connectOk := true
    servicesResolved := fun _ => true
    resolveOk := fun _ => true
    handleOf := fun _ => 5
    readValue := fun _ => none }

/-- A transport where every primitive succeeds and reads return the frame
for (1, 2, 3). -/
def okRadio : RadioStack :=
  { connectOk := true
    servicesResolved := fun _ => true
    resolveOk := fun _ => true
    handleOf := fun _ => 5
    readValue := fun _ => some [1, 0, 2, 0, 3, 0] }

/-- A session that has connected: the flag is set and the three handles
are stored. -/
def connectedCentral : CentralState :=
  { maxRetries := 3, retryDelay := 2, connected := true,
    characteristics := some ⟨5, 5, 5⟩ }

/-! ## Claims C1, C5, C6, C10 -/

/-- C1: with `max_retries = 3` stored in the session and a transport that
fails every connection attempt, `connect()` performs exactly ONE
`device.connect()` call and zero `retry_delay` sleeps (the stored retry
budget is never consulted by the method body), returning `False` with the
session not connected — not the three attempts with sleeps between them
that the claim (and the constructor's own docstring) describe. -/
theorem connect_single_attempt_on_total_failure :
    freshCentral.maxRetries = 3 ∧
    connect failingRadio freshCentral =
      (false, freshCentral, ⟨1, 0, 0⟩) := by
  constructor
  · rfl
  · rfl

/-- C5: characteristic resolution is all-or-nothing — if any of the three
descriptors fails to resolve, `_load_characteristics` raises, `connect()`
reports failure, and the session's characteristic set stays `None`
(no partial mapping is ever stored). -/
theorem load_characteristics_all_or_nothing (r : RadioStack) (s : CentralState)
    (hconn : s.connected = false) (hchars : s.characteristics = none)
    (hfail : r.resolveOk Channel.accel = false ∨ r.resolveOk Channel.gyro = false ∨
      r.resolveOk Channel.mag = false) :
    loadCharacteristics r = .error () ∧
    (connect r s).1 = false ∧
    (connect r s).2.1.characteristics = none := by
  have hload : loadCharacteristics r = .error () := by
    unfold loadCharacteristics
    rcases hfail with h | h | h <;> simp [h]
  refine ⟨hload, ?_⟩
  unfold connect
  rw [hconn]
  cases hc : r.connectOk with
  | false => simp [hchars]
  | true => simp [hload, hchars]

/-- Witness for C5 with the gyro descriptor failing to resolve. -/
theorem load_characteristics_all_or_nothing_witness :
    loadCharacteristics gyroFailRadio = .error () ∧
    (connect gyroFailRadio freshCentral).1 = false ∧
    (connect gyroFailRadio freshCentral).2.1.characteristics = none :=
  load_characteristics_all_or_nothing gyroFailRadio freshCentral rfl rfl
    (Or.inr (Or.inl rfl))

/-- Every arm of the guarded read leaves the trace untouched. -/
theorem readAttempt_trace (r : RadioStack) (s : CentralState) (name : String)
    (tr : ReadTrace) : (readAttempt r s name tr).2.2 = tr := by
  unfold readAttempt
  split
  · rfl
  · split
    · rfl
    · split
      · rfl
      · split
        · rfl
        · rfl

/-- C6: on a connected session, a transport-level read failure makes
`read_imu_data` return `None` (no exception propagates), clears the
connected flag, and any subsequent `read_imu_data` call therefore goes
through the implicit `connect()` branch before reading. -/
theorem read_demotes_on_transport_failure (r : RadioStack) (s : CentralState)
    (c : IMUCharacteristics) (name : String) (ch : Channel)
    (hconn : s.connected = true) (hchars : s.characteristics = some c)
    (hname : channelOfName name = some ch)
    (hread : r.readValue (c.handle ch) = none) :
    read_imu_data r s name = (none, { s with connected := false }, ⟨false⟩) ∧
    (∀ r2 : RadioStack,
      (read_imu_data r2 { s with connected := false } name).2.2.connectCalled = true) := by
  have hguard : ¬ (s.connected = false ∨ s.characteristics = none) := by
    rintro (h | h)
    · rw [hconn] at h; exact Bool.noConfusion h
    · rw [hchars] at h; exact Option.some_ne_none c h
  constructor
  · unfold read_imu_data
    rw [if_neg hguard]
    unfold readAttempt
    rw [hchars]
    simp only [hname, hread]
  · intro r2
    unfold read_imu_data
    rw [if_pos (Or.inl rfl)]
    by_cases h : (connect r2 { s with connected := false }).1 = false
    · rw [if_pos h]
    · rw [if_neg h]
      rw [readAttempt_trace r2 _ name ⟨true⟩]

/-- Witness for C6: connected session, the accel read raises at transport
level; the call returns `None` with the flag cleared, and a retry first
connects. -/
theorem read_demotes_on_transport_failure_witness :
    read_imu_data readFailRadio connectedCentral "accel" =
      (none, { connectedCentral with connected := false }, ⟨false⟩) ∧
    (read_imu_data failingRadio
      { connectedCentral with connected := false } "accel").2.2.connectCalled = true :=
  ⟨(read_demotes_on_transport_failure readFailRadio connectedCentral ⟨5, 5, 5⟩
      "accel" Channel.accel rfl rfl (by decide) rfl).1,
   (read_demotes_on_transport_failure readFailRadio connectedCentral ⟨5, 5, 5⟩
      "accel" Channel.accel rfl rfl (by decide) rfl).2 failingRadio⟩

/-- C10: on a connected session, a sensor name outside
{accel, gyro, mag} makes the dataclass attribute lookup raise inside the
same handler as a transport failure: `read_imu_data` returns `None`,
clears the connected flag, and the next call goes through the implicit
`connect()` branch. -/
theorem read_invalid_sensor_demotes (r : RadioStack) (s : CentralState)
    (c : IMUCharacteristics) (name : String)
    (hconn : s.connected = true) (hchars : s.characteristics = some c)
    (hname : channelOfName name = none) :
    read_imu_data r s name = (none, { s with connected := false }, ⟨false⟩) ∧
    (∀ r2 : RadioStack,
      (read_imu_data r2 { s with connected := false } name).2.2.connectCalled = true) := by
  have hguard : ¬ (s.connected = false ∨ s.characteristics = none) := by
    rintro (h | h)
    · rw [hconn] at h; exact Bool.noConfusion h
    · rw [hchars] at h; exact Option.some_ne_none c h
  constructor
  · unfold read_imu_data
    rw [if_neg hguard]
    unfold readAttempt
    rw [hchars]
    simp only [hname]
  · intro r2
    unfold read_imu_data
    rw [if_pos (Or.inl rfl)]
    by_cases h : (connect r2 { s with connected := false }).1 = false
    · rw [if_pos h]
    · rw [if_neg h]
      rw [readAttempt_trace r2 _ name ⟨true⟩]

/-- Witness for C10 at the undefined sensor name "temperature". -/
theorem read_invalid_sensor_demotes_witness :
    read_imu_data okRadio connectedCentral "temperature" =
      (none, { connectedCentral with connected := false }, ⟨false⟩) ∧
    (read_imu_data okRadio
      { connectedCentral with connected := false } "temperature").2.2.connectCalled = true :=
  ⟨(read_invalid_sensor_demotes okRadio connectedCentral ⟨5, 5, 5⟩
      "temperature" rfl rfl (by decide)).1,
   (read_invalid_sensor_demotes okRadio connectedCentral ⟨5, 5, 5⟩
      "temperature" rfl rfl (by decide)).2 okRadio⟩

/-! ## Claims C7, C8 -/

/-- A wrapper body that performs one accelerometer read and completes
normally (no exception leaves the body). -/
def readOnceBody (r : RadioStack) (s : CentralState) :
    Option Unit × CentralState :=
  (some (), (read_imu_data r s "accel").2.1)

/-- C7 counterexample: inside the connection wrapper, a body whose
accelerometer read fails at transport level demotes the session
(`connected = False`); the finally-block `disconnect()` still runs — once
— but its `if self.connected:` guard makes it a no-op, so the stored
characteristic handles are NOT discarded: the wrapper exits with
`_characteristics` still set, contradicting the claim that every exit
leaves the characteristic handles discarded. -/
theorem connection_stale_handles_counterexample :
    (connectionRun readFailRadio freshCentral readOnceBody).2.2 = 1 ∧
    (connectionRun readFailRadio freshCentral readOnceBody).2.1.connected = false ∧
    (connectionRun readFailRadio freshCentral readOnceBody).2.1.characteristics ≠ none := by
  refine ⟨rfl, rfl, ?_⟩
  intro h
  exact Option.noConfusion h

/-- C7 (amended): on every exit path of the connection wrapper — body
returning normally or raising, sync and async variants alike —
`disconnect()` is invoked exactly once and the session ends
non-connected; the stored characteristic handles are discarded whenever
the session is still connected when the body exits, but a body that has
already demoted the session (e.g. after a failed read) leaves the
previously stored handles in place, because `disconnect()` is a no-op on
a non-connected session. -/
theorem connection_always_disconnects (r : RadioStack) (s : CentralState)
    (body : RadioStack → CentralState → Option Unit × CentralState) :
    (connectionRun r s body).2.2 = 1 ∧
    (connectionRun r s body).2.1.connected = false ∧
    ((body r (connect r s).2.1).2.connected = true →
      (connectionRun r s body).2.1.characteristics = none) ∧
    (connectionRun_async r s body).2.2 = 1 ∧
    (connectionRun_async r s body).2.1.connected = false ∧
    ((body r (connect_async r s).2.1).2.connected = true →
      (connectionRun_async r s body).2.1.characteristics = none) := by
  refine ⟨rfl, ?_, ?_, rfl, ?_, ?_⟩ <;>
    simp only [connectionRun, connectionRun_async, disconnect, disconnect_async]
  · split
    · rfl
    · next h => simp only [Bool.not_eq_true] at h; exact h
  · intro h
    rw [if_pos h]
  · split
    · rfl
    · next h => simp only [Bool.not_eq_true] at h; exact h
  · intro h
    rw [if_pos h]

/-- A body that touches nothing and completes normally. -/
def idBody (_r : RadioStack) (s : CentralState) :
    Option Unit × CentralState :=
  (some (), s)

/-- Witness for the amended C7 theorem: connect succeeds, the body leaves
the session connected, and the wrapper tears everything down. -/
theorem connection_always_disconnects_witness :
    (connectionRun okRadio freshCentral idBody).2.2 = 1 ∧
    (connectionRun okRadio freshCentral idBody).2.1.connected = false ∧
    (connectionRun okRadio freshCentral idBody).2.1.characteristics = none ∧
    (connectionRun_async okRadio freshCentral idBody).2.2 = 1 ∧
    (connectionRun_async okRadio freshCentral idBody).2.1.connected = false ∧
    (connectionRun_async okRadio freshCentral idBody).2.1.characteristics = none :=
  ⟨(connection_always_disconnects okRadio freshCentral idBody).1,
   (connection_always_disconnects okRadio freshCentral idBody).2.1,
   (connection_always_disconnects okRadio freshCentral idBody).2.2.1 (by decide),
   (connection_always_disconnects okRadio freshCentral idBody).2.2.2.1,
   (connection_always_disconnects okRadio freshCentral idBody).2.2.2.2.1,
   (connection_always_disconnects okRadio freshCentral idBody).2.2.2.2.2 (by decide)⟩

/-- C8: the synchronous and asynchronous central variants are
behaviorally equivalent: against the same stubbed transport outcomes,
`connect`/`connect_async`, `disconnect`/`disconnect_async` and
`read_imu_data`/`read_imu_data_async` return identical results and leave
identical session state (connected flag and stored characteristics). -/
theorem sync_async_equivalent :
    (∀ (r : RadioStack) (s : CentralState), connect_async r s = connect r s) ∧
    (∀ s : CentralState, disconnect_async s = disconnect s) ∧
    (∀ (r : RadioStack) (s : CentralState) (name : String),
      read_imu_data_async r s name = read_imu_data r s name) :=
  ⟨fun _ _ => rfl, fun _ => rfl, fun _ _ _ => rfl⟩

/-- Witness for C8 at concrete transports, states and sensor name. -/
theorem sync_async_equivalent_witness :
    connect_async okRadio freshCentral = connect okRadio freshCentral ∧
    disconnect_async connectedCentral = disconnect connectedCentral ∧
    read_imu_data_async okRadio freshCentral "accel" =
      read_imu_data okRadio freshCentral "accel" :=
  ⟨sync_async_equivalent.1 okRadio freshCentral,
   sync_async_equivalent.2.1 connectedCentral,
   sync_async_equivalent.2.2 okRadio freshCentral "accel"⟩

/-! ## Composite float frame (single-characteristic variant)

`imu_data_sender.py` packs `struct.pack('<fffffffff', accX, accY, accZ,
gyrX, gyrY, gyrZ, magX, magY, magZ)` and `imu_data_receiver.py` unpacks
`struct.unpack('<fffffffff', data)`.  Each value crosses the wire as the
four little-endian bytes of its IEEE-754 binary32 image; the embedding
works on those 32-bit bit patterns (naturals below 2^32), which is exact:
a value representable in float32 round-trips bit for bit, i.e. to float32
precision. -/

/-- One composite frame: the nine float32 bit patterns in the fixed wire
order accelX, accelY, accelZ, gyroX, gyroY, gyroZ, magX, magY, magZ. -/
structure CompositeFrame where
  accelX : Nat
  accelY : Nat
  accelZ : Nat
  gyroX : Nat
  gyroY : Nat
  gyroZ : Nat
  magX : Nat
  magY : Nat
  magZ : Nat
deriving DecidableEq

/-- All nine fields are 32-bit words (IEEE-754 binary32 bit patterns). -/
def frameWf (f : CompositeFrame) : Prop :=
  f.accelX < 4294967296 ∧ f.accelY < 4294967296 ∧ f.accelZ < 4294967296 ∧
  f.gyroX < 4294967296 ∧ f.gyroY < 4294967296 ∧ f.gyroZ < 4294967296 ∧
  f.magX < 4294967296 ∧ f.magY < 4294967296 ∧ f.magZ < 4294967296

instance (f : CompositeFrame) : Decidable (frameWf f) := by
  unfold frameWf; infer_instance

/-- The four little-endian bytes of a 32-bit word, as `struct.pack('<f',
...)` emits for the word's float32 value. -/
def le32 (w : Nat) : List Nat :=
  [w % 256, w / 256 % 256, w / 65536 % 256, w / 16777216 % 256]

/-- Embedding of the sender's `struct.pack('<fffffffff', ...)` in
`imu_update_callback`: the nine values in the fixed accel, gyro, mag
order, each as four little-endian bytes. -/
def encodeComposite (f : CompositeFrame) : List Nat :=
  le32 f.accelX ++ le32 f.accelY ++ le32 f.accelZ ++
  le32 f.gyroX ++ le32 f.gyroY ++ le32 f.gyroZ ++
  le32 f.magX ++ le32 f.magY ++ le32 f.magZ

/-- Recombine four little-endian bytes into a 32-bit word. -/
def u32 (a b c d : Nat) : Nat :=
  a + 256 * b + 65536 * c + 16777216 * d

/-- Embedding of the receiver's `struct.unpack('<fffffffff', data)` in
`handle_notification`: a 36-byte payload yields the nine values in the
same fixed order; any other length raises `struct.error` (`none`). -/
def decodeComposite (bs : List Nat) : Option CompositeFrame :=
  match bs with
  | v0 :: v1 :: v2 :: v3 :: v4 :: v5 :: v6 :: v7 :: v8 :: v9 :: v10 :: v11 ::
    v12 :: v13 :: v14 :: v15 :: v16 :: v17 :: v18 :: v19 :: v20 :: v21 :: v22 :: v23 ::
    v24 :: v25 :: v26 :: v27 :: v28 :: v29 :: v30 :: v31 :: v32 :: v33 :: v34 :: v35 :: [] =>
      some ⟨u32 v0 v1 v2 v3, u32 v4 v5 v6 v7, u32 v8 v9 v10 v11,
            u32 v12 v13 v14 v15, u32 v16 v17 v18 v19, u32 v20 v21 v22 v23,
            u32 v24 v25 v26 v27, u32 v28 v29 v30 v31, u32 v32 v33 v34 v35⟩
  | _ => none

/-- Recombining the four little-endian bytes of a 32-bit word recovers it. -/
theorem u32_le32 (w : Nat) (h : w < 4294967296) :
    u32 (w % 256) (w / 256 % 256) (w / 65536 % 256) (w / 16777216 % 256) = w := by
  unfold u32
  omega

/-- C9: the composite-frame encode emits exactly 36 bytes — nine
little-endian float32 values in the fixed order accelX, accelY, accelZ,
gyroX, gyroY, gyroZ, magX, magY, magZ — and the composite decode parses
them back to the identical nine values (bit-exact on the float32 images,
i.e. recovery to float32 precision). -/
theorem composite_codec_roundtrip (f : CompositeFrame) (h : frameWf f) :
    (encodeComposite f).length = 36 ∧
    decodeComposite (encodeComposite f) = some f := by
  obtain ⟨h1, h2, h3, h4, h5, h6, h7, h8, h9⟩ := h
  constructor
  · simp [encodeComposite, le32]
  · simp only [encodeComposite, le32, List.cons_append, List.nil_append,
      decodeComposite]
    rw [u32_le32 _ h1, u32_le32 _ h2, u32_le32 _ h3, u32_le32 _ h4,
      u32_le32 _ h5, u32_le32 _ h6, u32_le32 _ h7, u32_le32 _ h8,
      u32_le32 _ h9]

/-- A sample composite frame: the float32 bit patterns of
(1.5, -2.0, 0.25, 100.0, 0.0, -0.5, 3.0, -1.0, 2.5). -/
def sampleFrame : CompositeFrame :=
  ⟨0x3FC00000, 0xC0000000, 0x3E800000,
   0x42C80000, 0x00000000, 0xBF000000,
   0x40400000, 0xBF800000, 0x40200000⟩

/-- Witness for the C9 round-trip at a concrete frame. -/
theorem composite_codec_roundtrip_witness :
    frameWf sampleFrame ∧
    (encodeComposite sampleFrame).length = 36 ∧
    decodeComposite (encodeComposite sampleFrame) = some sampleFrame :=
  ⟨by decide,
   (composite_codec_roundtrip sampleFrame (by decide)).1,
   (composite_codec_roundtrip sampleFrame (by decide)).2⟩

end BLE
